import Mathlib

/-!
Verification development for the uatwin 3D-campus pipeline.

Shallow embedding of:
  * src/data_processing/create_3d_models.py  (extrude_polygon, process_buildings_to_3d)
  * src/data_processing/terrain_processor.py (create_terrain_mesh)
  * src/data_acquisition/fetch_overture_buildings.py (fetch_buildings enrichment part)
  * src/enrich_buildings.py (enrich)

Python floats are modelled as `ℚ` (all arithmetic in the claims is exact),
`None`/NaN as `Option`, and a raised exception as `Except.error`.
The trigonometric longitude scale `111000 * cos(radians(lat_center))` is not
rational; every definition takes it as an explicit parameter `lonToM` and all
theorems quantify over it, since no settled claim depends on its value.
-/

namespace Uatwin

/-- A 2-D geographic coordinate (longitude, latitude); `ℚ` stands for a Python float. -/
abbrev Coord := ℚ × ℚ

/-- A 3-D vertex `[x, y, z]`. -/
abbrev V3 := ℚ × ℚ × ℚ

/-- A triangle as a triple of vertex indices. -/
abbrev Face := Nat × Nat × Nat

/-- The dictionary returned by `extrude_polygon` in create_3d_models.py. -/
structure Mesh where
  vertices : List V3
  faces : List Face
  numVertices : Nat
  numFaces : Nat
  deriving DecidableEq, Repr

/-- The `coords = coords[:-1]` removal of a repeated closing vertex
(create_3d_models.py lines 37-39): drop the last point when it equals the first. -/
def trimRing (coords : List Coord) : List Coord :=
  match coords with
  | [] => []
  | c :: cs => if (c :: cs).getLast? = some c then (c :: cs).dropLast else c :: cs

/-- The two vertex loops of `extrude_polygon` (lines 51-67) over the trimmed
ring: bottom ring (z = 0) first, then top ring (z = height), both anchored at
the ring's own first coordinate. -/
def extrudeVertices (lonToM : ℚ) (coords : List Coord) (height : ℚ) : List V3 :=
  let c0 := coords.headD (0, 0)
  coords.map (fun c => ((c.1 - c0.1) * lonToM, (c.2 - c0.2) * 111000, (0 : ℚ))) ++
  coords.map (fun c => ((c.1 - c0.1) * lonToM, (c.2 - c0.2) * 111000, height))

/-- The face loops of `extrude_polygon` (lines 69-87) for a trimmed ring of
`numPoints` points: wall quads split into two triangles, then the fan
triangulations of the bottom and top caps (emitted only when `numPoints > 2`). -/
def extrudeFaces (numPoints : Nat) : List Face :=
  let walls := List.flatten ((List.range numPoints).map (fun i =>
    [(i, (i + 1) % numPoints, numPoints + i),
     ((i + 1) % numPoints, numPoints + (i + 1) % numPoints, numPoints + i)]))
  let bottomCap := if 2 < numPoints then
    (List.range' 1 (numPoints - 2)).map (fun i => (0, i, i + 1)) else []
  let topCap := if 2 < numPoints then
    (List.range' 1 (numPoints - 2)).map
      (fun i => (numPoints, numPoints + i + 1, numPoints + i)) else []
  walls ++ bottomCap ++ topCap

/-- create_3d_models.py `extrude_polygon(polygon, height)`.
The input polygon is `none` for Python `None`; a non-null polygon is its list of
exterior-ring coordinates, `[]` when `polygon.is_empty`.  `lonToM` is the
per-feature scale `111000 * cos(radians(polygon.centroid.y))` passed explicitly. -/
def extrude_polygon (lonToM : ℚ) (polygon : Option (List Coord)) (height : ℚ) :
    Option Mesh :=
  match polygon with
  | none => none
  | some coords0 =>
    if coords0.isEmpty then none
    else if coords0.length < 3 then none
    else
      let coords := trimRing coords0
      let vertices := extrudeVertices lonToM coords height
      let faces := extrudeFaces coords.length
      some { vertices := vertices, faces := faces,
             numVertices := vertices.length, numFaces := faces.length }

/-- The geometry of one GeoDataFrame row, by `geom_type` dispatch
(create_3d_models.py lines 117-141).  A polygon carries its exterior-ring
coordinate list (`[]` = empty polygon); `other` covers every non-areal type. -/
inductive Geom where
  | polygon (coords : List Coord)
  | multiPolygon (parts : List (List Coord))
  | other
  deriving DecidableEq, Repr

/-- One input building row for `process_buildings_to_3d`: its index `idx`
(Python `str(idx)`), geometry and optional `height` column.  The name, type,
purpose and color attributes are copied through verbatim by the source and no
claim depends on them, so they are not modelled. -/
structure BRec where
  idx : String
  geom : Geom
  height : Option ℚ
  deriving DecidableEq, Repr

/-- One output record of `process_buildings_to_3d` (the modelled fields). -/
structure Model3D where
  id : String
  mesh : Mesh
  height : ℚ
  deriving DecidableEq, Repr

/-- create_3d_models.py lines 112-114: `height = building.get('height', 15.0);
if height is None or height <= 0: height = 15.0`. -/
def defaultHeight (h : Option ℚ) : ℚ :=
  match h with
  | none => 15
  | some x => if x ≤ 0 then 15 else x

/-- The body of the `for poly in geometry.geoms` loop of the MultiPolygon
branch, acting on the accumulator `buildings_3d`: the mesh id is
`f"{idx}_{len(buildings_3d)}"` — the length of the GLOBAL accumulator `a`. -/
def stepPart (lonToM : ℚ) (idx : String) (h : ℚ) (a : List Model3D)
    (p : List Coord) : List Model3D :=
  match extrude_polygon lonToM (some p) h with
  | some m => a ++ [{ id := idx ++ "_" ++ toString a.length, mesh := m, height := h }]
  | none => a

/-- The dispatch on `geometry.geom_type` for one building row. -/
def stepBuilding (lonToM : ℚ) (acc : List Model3D) (b : BRec) : List Model3D :=
  let h := defaultHeight b.height
  match b.geom with
  | .polygon coords =>
    match extrude_polygon lonToM (some coords) h with
    | some m => acc ++ [{ id := b.idx, mesh := m, height := h }]
    | none => acc
  | .multiPolygon parts => parts.foldl (stepPart lonToM b.idx h) acc
  | .other => acc

/-- create_3d_models.py `process_buildings_to_3d(buildings_gdf)`. -/
def process_buildings_to_3d (lonToM : ℚ) (buildings : List BRec) : List Model3D :=
  buildings.foldl (stepBuilding lonToM) []

/-- Statement-side description of the MultiPolygon branch used by the amended
claim C1: the records emitted for the sub-parts of one building, where `k` is
the running length of the global output list at the moment of appending. -/
def multiPartRecords (lonToM : ℚ) (idx : String) (h : ℚ) (k : Nat) :
    List (List Coord) → List Model3D
  | [] => []
  | p :: ps =>
    match extrude_polygon lonToM (some p) h with
    | some m => { id := idx ++ "_" ++ toString k, mesh := m, height := h } ::
        multiPartRecords lonToM idx h (k + 1) ps
    | none => multiPartRecords lonToM idx h k ps

/-! ## Terrain mesher (src/data_processing/terrain_processor.py) -/

/-- The input dictionary of `create_terrain_mesh`: bounds, `resolution` (rows
`resHeight`, columns `resWidth`), the elevation matrix and its claimed range. -/
structure ElevGrid where
  west : ℚ
  south : ℚ
  east : ℚ
  north : ℚ
  resHeight : Nat
  resWidth : Nat
  elevation : List (List ℚ)
  minElev : ℚ
  maxElev : ℚ
  deriving DecidableEq, Repr

/-- The output dictionary of `create_terrain_mesh` (bounds/resolution/range are
copied through). -/
structure TerrainMesh where
  vertices : List V3
  faces : List Face
  uvs : List (ℚ × ℚ)
  west : ℚ
  south : ℚ
  east : ℚ
  north : ℚ
  resHeight : Nat
  resWidth : Nat
  minElev : ℚ
  maxElev : ℚ
  deriving DecidableEq, Repr

/-- Python true division of an int by an int (`j / (width - 1)`), raising
`ZeroDivisionError` on a zero divisor. -/
def pdiv (a : Nat) (b : Int) : Except String ℚ :=
  if b = 0 then .error "ZeroDivisionError" else .ok ((a : ℚ) / (b : ℚ))

/-- Access `elevation[i, j]` (in-bounds; out-of-range reads default to 0 and
are never reached by the theorems, which carry shape hypotheses when needed). -/
def elevAt (g : ElevGrid) (i j : Nat) : ℚ :=
  (g.elevation.getD i []).getD j 0

/-- terrain_processor.py line 41:
`elev_range = max_elev - min_elev if max_elev > min_elev else 1`. -/
def elevRange (g : ElevGrid) : ℚ :=
  if g.minElev < g.maxElev then g.maxElev - g.minElev else 1

/-- The body of the vertex loop of `create_terrain_mesh` at cell `(i, j)`:
computes the vertex and its uv, propagating the two `ZeroDivisionError`s of
`j / (width - 1)` and `i / (height - 1)` in source order. -/
def terrainCell (lonToM : ℚ) (g : ElevGrid) (i j : Nat) :
    Except String (V3 × (ℚ × ℚ)) :=
  match pdiv j ((g.resWidth : Int) - 1) with
  | .error e => .error e
  | .ok jf =>
    match pdiv i ((g.resHeight : Int) - 1) with
    | .error e => .error e
    | .ok tif =>
      let lon := g.west + jf * (g.east - g.west)
      let lat := g.south + tif * (g.north - g.south)
      let x := (lon - g.west) * lonToM
      let y := (lat - g.south) * 111000
      let z := (elevAt g i j - g.minElev) / elevRange g * 10
      .ok ((x, y, z), (jf, 1 - tif))

/-- Sequencing of a Python `for` loop that may raise: first raise wins,
otherwise the list of results in order. -/
def mapE (f : α → Except String β) : List α → Except String (List β)
  | [] => .ok []
  | a :: as =>
    match f a with
    | .error e => .error e
    | .ok b =>
      match mapE f as with
      | .error e => .error e
      | .ok bs => .ok (b :: bs)

/-- The face loop of `create_terrain_mesh` (lines 58-71): two triangles per
grid quad, `for i in range(height-1), j in range(width-1)`. -/
def terrainFaces (g : ElevGrid) : List Face :=
  List.flatten ((List.range (g.resHeight - 1)).map (fun i =>
    List.flatten ((List.range (g.resWidth - 1)).map (fun j =>
      [(i * g.resWidth + j, i * g.resWidth + (j + 1), (i + 1) * g.resWidth + j),
       (i * g.resWidth + (j + 1), (i + 1) * g.resWidth + (j + 1),
        (i + 1) * g.resWidth + j)]))))

/-- terrain_processor.py `create_terrain_mesh(elevation_data)`; `lonToM` is
`111000 * cos(radians(lat_center))` passed explicitly. -/
def create_terrain_mesh (lonToM : ℚ) (g : ElevGrid) : Except String TerrainMesh :=
  match mapE (fun i => mapE (fun j => terrainCell lonToM g i j)
      (List.range g.resWidth)) (List.range g.resHeight) with
  | .error e => .error e
  | .ok rows =>
    let cells := rows.flatten
    .ok { vertices := cells.map (fun c => c.1), faces := terrainFaces g,
          uvs := cells.map (fun c => c.2),
          west := g.west, south := g.south, east := g.east, north := g.north,
          resHeight := g.resHeight, resWidth := g.resWidth,
          minElev := g.minElev, maxElev := g.maxElev }

/-- Statement-side formula of claim C2, written from the spec words
`z = (elev[i][j] - min_elev) / max(max_elev - min_elev, 1) * 10`, for
comparison against the source computation. -/
def zClaimC2 (g : ElevGrid) (i j : Nat) : ℚ :=
  (elevAt g i j - g.minElev) / max (g.maxElev - g.minElev) 1 * 10

/-! ## Building Reconciler
(src/data_acquisition/fetch_overture_buildings.py and src/enrich_buildings.py)

String columns are `Option String` (`none` = NaN/absent), heights `Option ℚ`.
The shapely `intersects` predicate of `gpd.sjoin` is passed as an explicit
boolean parameter `inter`; every theorem quantifies over it.  Records are
matched per building (equivalent to the source's groupby over distinct
source-assigned ids). -/

/-- One secondary-source (OSM) feature: its candidate name columns. -/
structure OsmFeat where
  name : Option String
  housename : Option String
  officialName : Option String
  altName : Option String
  deriving DecidableEq, Repr

/-- One primary record of fetch_overture_buildings.py `output_gdf`
(columns id, height, display_name, class, subtype; `cls` models the Python
column named `class`). -/
structure FBuilding where
  bid : String
  displayName : Option String
  cls : Option String
  subtype : Option String
  height : Option ℚ
  deriving DecidableEq, Repr

/-- One record of enrich_buildings.py (columns display_name, building_type,
purpose, height, color). -/
structure EBuilding where
  bid : String
  displayName : Option String
  buildingType : Option String
  purpose : Option String
  height : Option ℚ
  color : Option String
  deriving DecidableEq, Repr

/-- Python `str.lower()` (ASCII, which covers every curated key); built on the
character list underlying the string. -/
def lowerStr (s : String) : String :=
  ⟨s.data.map Char.toLower⟩

/-- Whether the first character list starts the second (`==` on chars). -/
def leadsList : List Char → List Char → Bool
  | [], _ => true
  | _ :: _, [] => false
  | a :: as, b :: bs => a == b && leadsList as bs

/-- Whether the first character list occurs contiguously in the second:
Python's `needle in hay` for strings. -/
def containsSub : List Char → List Char → Bool
  | ns, [] => ns.isEmpty
  | ns, c :: cs => leadsList ns (c :: cs) || containsSub ns cs

/-- Python `needle in hay` on strings. -/
def strIn (needle hay : String) : Bool :=
  containsSub needle.data hay.data

/-- The fuzzy key test of both manual-override passes:
`key.lower() in str(name).lower() or str(name).lower() in key.lower()`. -/
def matchKey (key nm : String) : Bool :=
  strIn (lowerStr key) (lowerStr nm) || strIn (lowerStr nm) (lowerStr key)

/-- One value of the curated `building_metadata` table. -/
structure MetaEntry where
  mname : String
  mtype : Option String
  mpurpose : Option String
  mheight : Option ℚ
  mcolor : Option String
  deriving DecidableEq, Repr

/-- The curated table of fetch_overture_buildings.py lines 121-169, in source
(insertion) order. -/
def building_metadata : List (String × MetaEntry) :=
  [("Bryant-Denny Stadium",
    ⟨"Bryant-Denny Stadium", some "stadium", some "Football Stadium", some 45,
     some "#e63946"⟩),
   ("Gorgas Library",
    ⟨"Amelia Gayle Gorgas Library", some "library", some "Main Library", some 30,
     some "#a8dadc"⟩),
   ("Ferguson Center",
    ⟨"Ferguson Student Center", some "student_center", some "Student Services",
     some 25, some "#f1faee"⟩),
   ("Shelby Hall",
    ⟨"Shelby Hall", some "academic", some "Engineering & Science", some 28,
     some "#457b9d"⟩),
   ("Coleman Coliseum",
    ⟨"Coleman Coliseum", some "arena", some "Basketball/Gymnastics", some 22,
     some "#1d3557"⟩),
   ("Russell Hall",
    ⟨"Russell Hall", some "academic", some "Nursing/Health", some 20, none⟩),
   ("Gallalee Hall",
    ⟨"Gallalee Hall", some "academic", some "Physics", some 18, none⟩)]

/-- fetch_overture_buildings.py `apply_manual_meta(row)` (lines 171-183):
first matching table entry wins; name/class/subtype are overwritten; height is
overwritten only when it `pd.isna` or equals 8.0. -/
def applyManualMeta (r : FBuilding) : FBuilding :=
  match r.displayName with
  | none => r
  | some nm =>
    match building_metadata.find? (fun kd => matchKey kd.1 nm) with
    | none => r
    | some kd =>
      { r with
        displayName := some kd.2.mname,
        cls := match kd.2.mtype with | some t => some t | none => r.cls,
        subtype := match kd.2.mpurpose with | some p => some p | none => r.subtype,
        height :=
          if r.height = none ∨ r.height = some 8 then
            match kd.2.mheight with | some hh => some hh | none => r.height
          else r.height }

/-- enrich_buildings.py `apply_metadata(row)` (lines 139-159): same table keys
(its entries additionally carry a capacity field, not read by the code); height
is overwritten only when it `pd.isna` — never for the 8.0 placeholder. -/
def apply_metadata (r : EBuilding) : EBuilding :=
  match r.displayName with
  | none => r
  | some nm =>
    match building_metadata.find? (fun kd => matchKey kd.1 nm) with
    | none => r
    | some kd =>
      { r with
        displayName := some kd.2.mname,
        buildingType :=
          match kd.2.mtype with | some t => some t | none => r.buildingType,
        purpose := match kd.2.mpurpose with | some p => some p | none => r.purpose,
        height := if r.height = none then kd.2.mheight else r.height,
        color := match kd.2.mcolor with | some c => some c | none => r.color }

/-- fetch_overture_buildings.py `get_best_name(row)` (lines 99-109) on one
joined row: the building's own display_name (when non-NaN and non-empty),
else the OSM candidate columns in priority order; `none` for an unmatched
left-join row. -/
def get_best_name (dn : Option String) (m : Option OsmFeat) : Option String :=
  match dn with
  | some s =>
    if s ≠ "" then some s
    else
      match m with
      | none => none
      | some f =>
        match f.name with
        | some v => some v
        | none =>
          match f.housename with
          | some v => some v
          | none =>
            match f.officialName with
            | some v => some v
            | none => f.altName
  | none =>
    match m with
    | none => none
    | some f =>
      match f.name with
      | some v => some v
      | none =>
        match f.housename with
        | some v => some v
        | none =>
          match f.officialName with
          | some v => some v
          | none => f.altName

/-- The `groupby` / `first` collapse of the join rows of one building: the
first non-NaN candidate value (pandas `first()` skips NA). -/
def firstSome (l : List (Option String)) : Option String :=
  (l.filterMap id).head?

/-- The spatial-join + name-resolution step of fetch_buildings (lines 91-113)
for one building: its left-join rows are the intersecting OSM features (one
all-NaN row when there are none), and `display_name` becomes the first
non-NaN `get_best_name` over them. -/
def joinedName (inter : FBuilding → OsmFeat → Bool) (osm : List OsmFeat)
    (b : FBuilding) : Option String :=
  let ms := osm.filter (fun f => inter b f)
  let rows := if ms.isEmpty then [(none : Option OsmFeat)] else ms.map some
  firstSome (rows.map (fun m => get_best_name b.displayName m))

/-- The whole OSM-enrichment block of fetch_buildings when the fetch succeeds. -/
def joinNames (inter : FBuilding → OsmFeat → Bool) (bs : List FBuilding)
    (osm : List OsmFeat) : List FBuilding :=
  bs.map (fun b => { b with displayName := joinedName inter osm b })

/-- The Reconciler part of fetch_overture_buildings.py `fetch_buildings`
(lines 70-185): the OSM fetch result is an `Except` (error = the exception
caught at line 116); on failure the join is skipped with a warning, and the
manual-override pass then runs unconditionally over every record. -/
def fetchReconcile (inter : FBuilding → OsmFeat → Bool)
    (osm : Except String (List OsmFeat)) (bs : List FBuilding) : List FBuilding :=
  (match osm with
   | .ok fs => joinNames inter bs fs
   | .error _ => bs).map applyManualMeta

/-- enrich_buildings.py `get_best_name` (lines 51-61); same priority order. -/
def getBestNameE (dn : Option String) (m : Option OsmFeat) : Option String :=
  get_best_name dn m

/-- The join step of enrich_buildings.py: unlike fetch_buildings it keeps the
old display_name when the map yields NaN
(`.map(name_map).fillna(buildings_gdf['display_name'])`, line 81). -/
def joinNamesE (inter : EBuilding → OsmFeat → Bool) (bs : List EBuilding)
    (osm : List OsmFeat) : List EBuilding :=
  bs.map (fun b =>
    let ms := osm.filter (fun f => inter b f)
    let rows := if ms.isEmpty then [(none : Option OsmFeat)] else ms.map some
    let nn := firstSome (rows.map (fun m => getBestNameE b.displayName m))
    { b with displayName := match nn with | some s => some s | none => b.displayName })

/-- enrich_buildings.py `enrich()` (lines 27-175): the OSM fetch, join, manual
pass and file write all sit inside ONE `try`; any fetch exception jumps to the
outer `except` (line 172), which prints and returns — `none` models "no output
collection produced".  (The early `return` when the OSM data has no name
columns is subsumed in the `.error` case for the purpose of the claims.) -/
def enrichPipeline (inter : EBuilding → OsmFeat → Bool)
    (osm : Except String (List OsmFeat)) (bs : List EBuilding) :
    Option (List EBuilding) :=
  match osm with
  | .error _ => none
  | .ok fs => some ((joinNamesE inter bs fs).map apply_metadata)

/-- A record whose display_name is resolved: non-NaN and non-empty. -/
def nameResolved (b : FBuilding) : Bool :=
  match b.displayName with
  | some s => s ≠ ""
  | none => false

/-! ## Helper predicates used by the claims -/

/-- Face-index validity of a building mesh: every index of every face triple is
strictly below the number of vertices. -/
def meshFacesOk (m : Mesh) : Bool :=
  m.faces.all (fun f => decide (f.1 < m.vertices.length) &&
    decide (f.2.1 < m.vertices.length) && decide (f.2.2 < m.vertices.length))

/-- Face-index validity of a terrain mesh. -/
def terrainMeshFacesOk (m : TerrainMesh) : Bool :=
  m.faces.all (fun f => decide (f.1 < m.vertices.length) &&
    decide (f.2.1 < m.vertices.length) && decide (f.2.2 < m.vertices.length))

/-- A square test ring (the spec §8 scenario square scaled by 10⁴: no counted
or anchored property of the extruder depends on the scale). -/
def sqRing : List Coord := [(0, 0), (0, 1), (1, 1), (1, 0)]

/-- The terrain mesh of a successful run (junk on error); used to name concrete
meshes in witnesses. -/
def terrainOrEmpty (e : Except String TerrainMesh) : TerrainMesh :=
  match e with
  | .ok m => m
  | .error _ => ⟨[], [], [], 0, 0, 0, 0, 0, 0, 0, 0⟩

/-- The mesh of a successful extrusion (junk on `None`). -/
def meshOrEmpty (e : Option Mesh) : Mesh :=
  match e with
  | some m => m
  | none => ⟨[], [], 0, 0⟩

/-! ## Lemmas about the extruder -/

lemma trimRing_length_le (cs : List Coord) : (trimRing cs).length ≤ cs.length := by
  cases cs with
  | nil => exact Nat.le_refl _
  | cons c rest =>
    simp only [trimRing]
    split
    · rw [List.length_dropLast]; omega
    · exact Nat.le_refl _

lemma extrude_some (L : ℚ) (cs : List Coord) (h : ℚ) (h3 : 3 ≤ cs.length) :
    extrude_polygon L (some cs) h =
      some { vertices := extrudeVertices L (trimRing cs) h,
             faces := extrudeFaces (trimRing cs).length,
             numVertices := (extrudeVertices L (trimRing cs) h).length,
             numFaces := (extrudeFaces (trimRing cs).length).length } := by
  have h1 : cs.isEmpty = false := by
    cases cs with
    | nil => simp at h3
    | cons a l => rfl
  simp [extrude_polygon, h1, Nat.not_lt.mpr h3]

lemma extrudeVertices_length (L : ℚ) (cs : List Coord) (h : ℚ) :
    (extrudeVertices L cs h).length = 2 * cs.length := by
  simp [extrudeVertices, two_mul]

lemma flatten_pairs_length {α : Type} (f : Nat → List α) (hf : ∀ i, (f i).length = 2) :
    ∀ n, (List.flatten ((List.range n).map f)).length = 2 * n := by
  intro n
  induction n with
  | zero => simp
  | succ k ih =>
    rw [List.range_succ, List.map_append, List.flatten_append, List.length_append, ih]
    simp [hf k]
    omega

lemma extrudeFaces_length (n : Nat) (h2 : 2 < n) :
    (extrudeFaces n).length = 2 * n + 2 * (n - 2) := by
  unfold extrudeFaces
  rw [List.length_append, List.length_append,
    flatten_pairs_length (fun i => [(i, (i + 1) % n, n + i),
      ((i + 1) % n, n + (i + 1) % n, n + i)]) (fun i => rfl) n]
  simp [h2, List.length_range']
  omega

lemma extrudeFaces_bounds (n : Nat) (hn : 0 < n) :
    ∀ f ∈ extrudeFaces n, f.1 < 2 * n ∧ f.2.1 < 2 * n ∧ f.2.2 < 2 * n := by
  intro f hf
  unfold extrudeFaces at hf
  simp only [List.mem_append, List.mem_flatten, List.mem_map] at hf
  rcases hf with (⟨l, ⟨i, hi, rfl⟩, hfl⟩ | hcap) | hcap
  · simp only [List.mem_range] at hi
    have hmod : (i + 1) % n < n := Nat.mod_lt _ hn
    simp only [List.mem_cons, List.not_mem_nil, or_false] at hfl
    rcases hfl with rfl | rfl
    · dsimp only; omega
    · dsimp only; omega
  all_goals {
    split at hcap
    · simp only [List.mem_map, List.mem_range'] at hcap
      obtain ⟨i, ⟨k, hk, rfl⟩, rfl⟩ := hcap
      dsimp only
      omega
    · simp at hcap }

lemma trimRing_length_ge (cs : List Coord) : cs.length - 1 ≤ (trimRing cs).length := by
  cases cs with
  | nil => simp [trimRing]
  | cons c rest =>
    simp only [trimRing]
    split
    · rw [List.length_dropLast]
    · omega

lemma extrude_none_of_short (L : ℚ) (cs : List Coord) (h : ℚ)
    (hlt : cs.length < 3) : extrude_polygon L (some cs) h = none := by
  have h1 : cs.isEmpty = true ∨ cs.isEmpty = false := by cases cs.isEmpty <;> simp
  rcases h1 with h1 | h1 <;> simp [extrude_polygon, h1, hlt]

/-- C3 — the extruder returns null exactly when the ring is null/empty or has
fewer than 3 points after removal of a repeated closing vertex: FALSE.  The
`< 3` test happens BEFORE the closing-vertex removal: the closed 3-coordinate
ring `[(0,0), (1,1), (0,0)]` has only 2 distinct points yet produces a
(degenerate, wall-only) mesh instead of null. -/
theorem claim3_counterexample :
    (extrude_polygon 111000 (some [((0 : ℚ), (0 : ℚ)), (1, 1), (0, 0)]) 10).isSome
      = true ∧
    (trimRing [((0 : ℚ), (0 : ℚ)), (1, 1), (0, 0)]).length = 2 := by
  exact ⟨by decide, by decide⟩

/-- C3 (amended) — the extruder returns null exactly when the input polygon is
null, or its coordinate list has fewer than 3 points BEFORE the removal of a
repeated closing vertex (the empty ring being the 0-point case). -/
theorem claim3_amended (L h : ℚ) :
    extrude_polygon L none h = none ∧
    ∀ cs : List Coord, (extrude_polygon L (some cs) h = none ↔ cs.length < 3) := by
  refine ⟨rfl, fun cs => ⟨?_, ?_⟩⟩
  · intro hn
    by_contra hlt
    rw [extrude_some L cs h (by omega)] at hn
    cases hn
  · exact extrude_none_of_short L cs h

/-- C7 — for every valid ring whose trimmed form has `n ≥ 3` distinct points
and every height `h > 0`, extrusion succeeds with exactly `2n` vertices and
`2n + 2(n-2)` faces. -/
theorem claim7_vertex_face_counts (L : ℚ) (cs : List Coord) (h : ℚ) (n : Nat)
    (hn : 3 ≤ n) (hlen : (trimRing cs).length = n) (hnd : (trimRing cs).Nodup)
    (hh : 0 < h) :
    (extrude_polygon L (some cs) h).isSome = true ∧
    (meshOrEmpty (extrude_polygon L (some cs) h)).vertices.length = 2 * n ∧
    (meshOrEmpty (extrude_polygon L (some cs) h)).faces.length = 2 * n + 2 * (n - 2) := by
  have h3 : 3 ≤ cs.length := le_trans (hlen ▸ hn) (trimRing_length_le cs)
  rw [extrude_some L cs h h3]
  refine ⟨rfl, ?_, ?_⟩
  · show (extrudeVertices L (trimRing cs) h).length = 2 * n
    rw [extrudeVertices_length, hlen]
  · show (extrudeFaces (trimRing cs).length).length = 2 * n + 2 * (n - 2)
    rw [hlen]
    exact extrudeFaces_length n (by omega)

/-- Witness for C7: the spec §8 square ring at height 10 gives 8 vertices and
12 faces. -/
theorem claim7_witness :
    (3 ≤ 4 ∧ (trimRing sqRing).length = 4 ∧ (trimRing sqRing).Nodup ∧ (0 : ℚ) < 10) ∧
    ((extrude_polygon 111000 (some sqRing) 10).isSome = true ∧
     (meshOrEmpty (extrude_polygon 111000 (some sqRing) 10)).vertices.length = 2 * 4 ∧
     (meshOrEmpty (extrude_polygon 111000 (some sqRing) 10)).faces.length = 2 * 4 + 2 * (4 - 2)) :=
  ⟨⟨by decide, by decide, by decide, by decide⟩,
   claim7_vertex_face_counts 111000 sqRing 10 4 (by decide) (by decide) (by decide) (by decide)⟩

/-- C10 — every successful extrusion of a ring whose trimmed form has `n`
distinct points is anchored at the ring's own first vertex: vertex 0 is
exactly (0, 0, 0), vertex `n` is exactly (0, 0, h), the first `n` vertices
have z = 0 and the remaining vertices have z = h. -/
theorem claim10_anchoring (L : ℚ) (cs : List Coord) (h : ℚ) (n : Nat) (m : Mesh)
    (hs : extrude_polygon L (some cs) h = some m)
    (hlen : (trimRing cs).length = n) (hnd : (trimRing cs).Nodup) :
    m.vertices[0]? = some (0, 0, 0) ∧
    m.vertices[n]? = some (0, 0, h) ∧
    (m.vertices.take n).all (fun v => v.2.2 == 0) = true ∧
    (m.vertices.drop n).all (fun v => v.2.2 == h) = true := by
  have h3 : 3 ≤ cs.length := by
    by_contra hlt
    rw [extrude_none_of_short L cs h (by omega)] at hs
    cases hs
  rw [extrude_some L cs h h3] at hs
  have hge := trimRing_length_ge cs
  rw [hlen] at hge
  have hne : trimRing cs ≠ [] := by
    intro hnil
    rw [hnil] at hlen
    simp at hlen
    omega
  obtain ⟨c0, rest, ht⟩ := List.exists_cons_of_ne_nil hne
  have hm : m = { vertices := extrudeVertices L (trimRing cs) h,
                  faces := extrudeFaces (trimRing cs).length,
                  numVertices := (extrudeVertices L (trimRing cs) h).length,
                  numFaces := (extrudeFaces (trimRing cs).length).length } := by
    injection hs with hs
    exact hs.symm
  subst hm
  rw [ht] at hlen ⊢
  simp only [extrudeVertices, List.headD_cons]
  have hlenA : ((c0 :: rest).map
      (fun c => ((c.1 - c0.1) * L, (c.2 - c0.2) * 111000, (0 : ℚ)))).length = n := by
    simpa using hlen
  refine ⟨?_, ?_, ?_, ?_⟩
  · rw [List.getElem?_append, if_pos (by rw [hlenA]; omega)]
    simp
  · rw [List.getElem?_append_right (le_of_eq hlenA), hlenA, Nat.sub_self]
    simp
  · rw [← hlenA, List.take_left]
    rw [List.all_eq_true]
    intro x hx
    simp only [List.mem_map] at hx
    obtain ⟨c, hc, rfl⟩ := hx
    simp
  · rw [← hlenA, List.drop_left]
    rw [List.all_eq_true]
    intro x hx
    simp only [List.mem_map] at hx
    obtain ⟨c, hc, rfl⟩ := hx
    simp

/-- The extruded mesh of the square test ring at height 10. -/
def sqMesh : Mesh := meshOrEmpty (extrude_polygon 111000 (some sqRing) 10)

/-- Witness for C10: the square ring at height 10. -/
theorem claim10_witness :
    sqMesh.vertices[0]? = some (0, 0, 0) ∧
    sqMesh.vertices[4]? = some (0, 0, 10) ∧
    (sqMesh.vertices.take 4).all (fun v => v.2.2 == 0) = true ∧
    (sqMesh.vertices.drop 4).all (fun v => v.2.2 == 10) = true :=
  claim10_anchoring 111000 sqRing 10 4 sqMesh (by rfl) (by decide) (by decide)

/-! ## C1 — multipolygon mesh ids -/

lemma multiPartRecords_cons_none (L : ℚ) (idx : String) (h : ℚ) (k : Nat)
    (p : List Coord) (ps : List (List Coord))
    (hx : extrude_polygon L (some p) h = none) :
    multiPartRecords L idx h k (p :: ps) = multiPartRecords L idx h k ps := by
  simp only [multiPartRecords, hx]

lemma multiPartRecords_cons_some (L : ℚ) (idx : String) (h : ℚ) (k : Nat)
    (p : List Coord) (ps : List (List Coord)) (m : Mesh)
    (hx : extrude_polygon L (some p) h = some m) :
    multiPartRecords L idx h k (p :: ps) =
      { id := idx ++ "_" ++ toString k, mesh := m, height := h } ::
        multiPartRecords L idx h (k + 1) ps := by
  simp only [multiPartRecords, hx]

lemma stepPart_foldl (L : ℚ) (idx : String) (h : ℚ) :
    ∀ (parts : List (List Coord)) (acc : List Model3D),
      parts.foldl (stepPart L idx h) acc =
        acc ++ multiPartRecords L idx h acc.length parts := by
  intro parts
  induction parts with
  | nil => intro acc; simp [multiPartRecords]
  | cons p ps ih =>
    intro acc
    rw [List.foldl_cons]
    cases hx : extrude_polygon L (some p) h with
    | none =>
      have hstep : stepPart L idx h acc p = acc := by
        unfold stepPart; rw [hx]
      rw [hstep, ih, multiPartRecords_cons_none L idx h acc.length p ps hx]
    | some m =>
      have hstep : stepPart L idx h acc p =
          acc ++ [{ id := idx ++ "_" ++ toString acc.length, mesh := m, height := h }] := by
        unfold stepPart; rw [hx]
      rw [hstep, ih, multiPartRecords_cons_some L idx h acc.length p ps m hx]
      simp [List.length_append]

/-- C1 — the id of each mesh record produced for a Multi-Polygon sub-part is
`"{building_id}_{k}"` with `k` the count of meshes produced for THAT building
so far: FALSE.  `k` is `len(buildings_3d)`, the length of the global output
list: after a first building that produced one mesh, the single sub-part of
the second (Multi-Polygon) building gets id `"1_1"`, not the claimed `"1_0"`. -/
theorem claim1_counterexample :
    (process_buildings_to_3d 111000
      [{ idx := "0", geom := Geom.polygon sqRing, height := some 10 },
       { idx := "1", geom := Geom.multiPolygon [sqRing], height := some 10 }]).map
        Model3D.id = ["0", "1_1"] ∧ ("1_1" : String) ≠ "1_0" := by
  exact ⟨by decide, by decide⟩

/-- C1 (amended) — for a Multi-Polygon building the expander emits one mesh
record per successfully extruded sub-polygon with id `"{building_id}_{k}"`,
where `k` is the length of the GLOBAL output list at the moment of appending
(it counts successfully produced meshes of all buildings so far, and a
degenerate sub-part consumes no index); the spec §8 scenario (one degenerate
2-vertex part plus one valid part giving exactly one record with suffix `_0`)
therefore holds exactly when no earlier building produced a mesh. -/
theorem claim1_amended :
    (∀ (L : ℚ) (bs : List BRec) (idx : String) (parts : List (List Coord))
       (h : Option ℚ),
      process_buildings_to_3d L
          (bs ++ [{ idx := idx, geom := Geom.multiPolygon parts, height := h }]) =
        process_buildings_to_3d L bs ++
          multiPartRecords L idx (defaultHeight h)
            (process_buildings_to_3d L bs).length parts) ∧
    (process_buildings_to_3d 111000
      [{ idx := "1",
         geom := Geom.multiPolygon [[(0, 0), (1, 1)], sqRing],
         height := some 10 }]).map Model3D.id = ["1_0"] := by
  constructor
  · intro L bs idx parts h
    unfold process_buildings_to_3d
    rw [List.foldl_append, List.foldl_cons, List.foldl_nil]
    show stepBuilding L (List.foldl (stepBuilding L) [] bs)
        { idx := idx, geom := Geom.multiPolygon parts, height := h } = _
    simp only [stepBuilding]
    exact stepPart_foldl L idx (defaultHeight h) parts _
  · decide

/-! ## Lemmas about the terrain mesher -/

lemma mapE_ok_length {α β : Type} (f : α → Except String β) :
    ∀ (xs : List α) (l : List β), mapE f xs = .ok l → l.length = xs.length := by
  intro xs
  induction xs with
  | nil =>
    intro l hl
    cases hl
    rfl
  | cons a as ih =>
    intro l hl
    simp only [mapE] at hl
    split at hl
    · cases hl
    · split at hl
      · cases hl
      · rename_i b hfa bs hrec
        cases hl
        simp [ih bs hrec]

lemma mapE_ok_getElem {α β : Type} (f : α → Except String β) :
    ∀ (xs : List α) (l : List β), mapE f xs = .ok l →
      ∀ (i : Nat) (a : α), xs[i]? = some a →
        ∃ b, f a = .ok b ∧ l[i]? = some b := by
  intro xs
  induction xs with
  | nil =>
    intro l hl i a ha
    simp at ha
  | cons x as ih =>
    intro l hl i a ha
    simp only [mapE] at hl
    cases hfa : f x with
    | error e =>
      simp only [hfa] at hl
      cases hl
    | ok b =>
      simp only [hfa] at hl
      cases hrec : mapE f as with
      | error e =>
        simp only [hrec] at hl
        cases hl
      | ok bs =>
        simp only [hrec] at hl
        cases hl
        cases i with
        | zero =>
          simp only [List.getElem?_cons_zero, Option.some.injEq] at ha
          subst ha
          exact ⟨b, hfa, by simp⟩
        | succ i =>
          simp only [List.getElem?_cons_succ] at ha ⊢
          exact ih bs hrec i a ha

lemma mapE_ok_of_forall {α β : Type} (f : α → Except String β) (c : β) :
    ∀ (xs : List α), (∀ a ∈ xs, f a = .ok c) →
      mapE f xs = .ok (xs.map (fun _ => c)) := by
  intro xs
  induction xs with
  | nil => intro _; rfl
  | cons a as ih =>
    intro h
    simp only [mapE]
    rw [h a (by simp), ih (fun x hx => h x (by simp [hx]))]
    rfl

lemma mapE_cons_error {α β : Type} (f : α → Except String β) (a : α) (l : List α)
    (e : String) (h : f a = .error e) : mapE f (a :: l) = .error e := by
  simp only [mapE]
  rw [h]

lemma flatten_getElem {γ : Type} (w : Nat) :
    ∀ (rs : List (List γ)) (i j : Nat), (∀ r ∈ rs, r.length = w) → j < w →
      rs.flatten[i * w + j]? = rs[i]?.bind (fun r => r[j]?) := by
  intro rs
  induction rs with
  | nil => intro i j _ _; simp
  | cons r rest ih =>
    intro i j hw hj
    have hr : r.length = w := hw r (by simp)
    cases i with
    | zero =>
      rw [List.flatten_cons]
      rw [Nat.zero_mul, Nat.zero_add, List.getElem?_append, if_pos (by omega)]
      simp
    | succ i =>
      have hidx : (i + 1) * w + j = r.length + (i * w + j) := by
        rw [hr, Nat.succ_mul]
        omega
      rw [List.flatten_cons, hidx, List.getElem?_append_right (by omega),
        Nat.add_sub_cancel_left]
      rw [ih i j (fun x hx => hw x (by simp [hx])) hj]
      simp

lemma flatten_length_of_uniform {γ : Type} (w : Nat) :
    ∀ (rs : List (List γ)), (∀ r ∈ rs, r.length = w) →
      rs.flatten.length = rs.length * w := by
  intro rs
  induction rs with
  | nil => intro _; simp
  | cons r rest ih =>
    intro hw
    rw [List.flatten_cons, List.length_append, hw r (by simp),
      ih (fun x hx => hw x (by simp [hx])), List.length_cons, Nat.succ_mul]
    omega

lemma create_ok_elim (L : ℚ) (g : ElevGrid) (m : TerrainMesh)
    (hm : create_terrain_mesh L g = .ok m) :
    ∃ rows,
      mapE (fun i => mapE (fun j => terrainCell L g i j) (List.range g.resWidth))
          (List.range g.resHeight) = .ok rows ∧
      m.vertices = rows.flatten.map (fun c => c.1) ∧
      m.faces = terrainFaces g := by
  unfold create_terrain_mesh at hm
  split at hm
  · cases hm
  · rename_i rows hrows
    cases hm
    exact ⟨rows, hrows, rfl, rfl⟩

lemma terrain_rows_width (L : ℚ) (g : ElevGrid)
    (rows : List (List (V3 × (ℚ × ℚ))))
    (hrows : mapE (fun i => mapE (fun j => terrainCell L g i j)
        (List.range g.resWidth)) (List.range g.resHeight) = .ok rows) :
    rows.length = g.resHeight ∧ ∀ r ∈ rows, r.length = g.resWidth := by
  have hlen := mapE_ok_length _ _ _ hrows
  rw [List.length_range] at hlen
  refine ⟨hlen, fun r hr => ?_⟩
  obtain ⟨i, hi⟩ := List.mem_iff_getElem?.mp hr
  have hiH : i < rows.length := by
    by_contra hlt
    rw [List.getElem?_eq_none (by omega)] at hi
    cases hi
  rw [hlen] at hiH
  obtain ⟨row, hrow, hrowsi⟩ :=
    mapE_ok_getElem _ _ _ hrows i i (List.getElem?_range hiH)
  rw [hi] at hrowsi
  cases hrowsi
  have := mapE_ok_length _ _ _ hrow
  rwa [List.length_range] at this

lemma terrainCell_ok_z (L : ℚ) (g : ElevGrid) (i j : Nat) (c : V3 × (ℚ × ℚ))
    (hc : terrainCell L g i j = .ok c) :
    c.1.2.2 = (elevAt g i j - g.minElev) / elevRange g * 10 := by
  unfold terrainCell at hc
  split at hc
  · cases hc
  · split at hc
    · cases hc
    · cases hc
      rfl

/-- The z computation of every terrain vertex, as the source performs it
(shared by the C2 theorem and counterexample). -/
lemma terrain_vertex_z (L : ℚ) (g : ElevGrid) (m : TerrainMesh) (i j : Nat)
    (hm : create_terrain_mesh L g = .ok m) (hi : i < g.resHeight)
    (hj : j < g.resWidth) :
    (m.vertices[i * g.resWidth + j]?).map (fun v => v.2.2) =
      some ((elevAt g i j - g.minElev) / elevRange g * 10) := by
  obtain ⟨rows, hrows, hverts, hfaces⟩ := create_ok_elim L g m hm
  obtain ⟨hrlen, hrw⟩ := terrain_rows_width L g rows hrows
  rw [hverts, List.getElem?_map, flatten_getElem g.resWidth rows i j hrw hj]
  obtain ⟨row, hrow, hrowsi⟩ :=
    mapE_ok_getElem _ _ _ hrows i i (List.getElem?_range hi)
  obtain ⟨cell, hcell, hrowj⟩ :=
    mapE_ok_getElem _ _ _ hrow j j (List.getElem?_range hj)
  rw [hrowsi]
  simp only [Option.some_bind]
  rw [hrowj]
  simp [terrainCell_ok_z L g i j cell hcell]

/-- The 2×2 grid with fractional elevation range (counterexample input for
C2): `max_elev - min_elev = 1/2` lies strictly between 0 and 1. -/
def g22 : ElevGrid :=
  { west := 0, south := 0, east := 1, north := 1, resHeight := 2, resWidth := 2,
    elevation := [[0, 1/2], [0, 0]], minElev := 0, maxElev := 1/2 }

/-- The terrain mesh of `g22`. -/
def g22Mesh : TerrainMesh := terrainOrEmpty (create_terrain_mesh 111000 g22)

/-- C2 — every terrain vertex has
`z = (elev[i][j] - min_elev) / max(max_elev - min_elev, 1) * 10`: FALSE.  The
source divides by `max_elev - min_elev` whenever `max_elev > min_elev`, even
when that range is smaller than 1: on a grid with range 1/2 the cell holding
the maximum gets z = 10, while the claimed formula gives 5. -/
theorem claim2_counterexample :
    (g22Mesh.vertices[1]?).map (fun v => v.2.2) = some 10 ∧
    zClaimC2 g22 0 1 = 5 ∧ (10 : ℚ) ≠ 5 := by
  refine ⟨?_, ?_, by norm_num⟩
  · have h := terrain_vertex_z 111000 g22 g22Mesh 0 1 (by rfl) (by decide) (by decide)
    rw [show (0 * g22.resWidth + 1) = 1 from rfl] at h
    rw [h]
    norm_num [elevAt, elevRange, g22]
  · norm_num [zClaimC2, elevAt, g22, max_def]

/-- C2 (amended) — every terrain vertex at cell (i, j) has
`z = (elev[i][j] - min_elev) / elev_range * 10` with
`elev_range = (max_elev - min_elev) if max_elev > min_elev else 1`; in
particular on a flat grid (min = max, values bracketed) every z is 0 and no
division by zero occurs. -/
theorem claim2_amended (L : ℚ) (g : ElevGrid) (m : TerrainMesh) (i j : Nat)
    (hm : create_terrain_mesh L g = .ok m) (hi : i < g.resHeight)
    (hj : j < g.resWidth) :
    (m.vertices[i * g.resWidth + j]?).map (fun v => v.2.2) =
      some ((elevAt g i j - g.minElev) / elevRange g * 10) ∧
    (g.minElev = g.maxElev → elevAt g i j = g.minElev →
      (m.vertices[i * g.resWidth + j]?).map (fun v => v.2.2) = some 0) := by
  refine ⟨terrain_vertex_z L g m i j hm hi hj, fun hmin helev => ?_⟩
  rw [terrain_vertex_z L g m i j hm hi hj, helev]
  have hr : elevRange g = 1 := by
    unfold elevRange
    rw [if_neg]
    rw [hmin]
    exact lt_irrefl _
  rw [hr]
  simp

/-- Witness for C2 (amended) at the concrete grid `g22`, cell (0, 1). -/
theorem claim2_witness :
    ((g22Mesh.vertices[0 * g22.resWidth + 1]?).map (fun v => v.2.2) =
      some ((elevAt g22 0 1 - g22.minElev) / elevRange g22 * 10) ∧
    (g22.minElev = g22.maxElev → elevAt g22 0 1 = g22.minElev →
      (g22Mesh.vertices[0 * g22.resWidth + 1]?).map (fun v => v.2.2) = some 0)) :=
  claim2_amended 111000 g22 g22Mesh 0 1 (by rfl) (by decide) (by decide)

/-! ## C6 — degenerate grid dimensions -/

/-- The record `create_terrain_mesh` returns for a grid with zero rows or zero
columns: empty vertex/face/uv lists with the input metadata copied through. -/
def emptyTerrainMesh (g : ElevGrid) : TerrainMesh :=
  { vertices := [], faces := [], uvs := [], west := g.west, south := g.south,
    east := g.east, north := g.north, resHeight := g.resHeight,
    resWidth := g.resWidth, minElev := g.minElev, maxElev := g.maxElev }

lemma terrainFaces_zero (g : ElevGrid)
    (h0 : g.resHeight = 0 ∨ g.resWidth = 0) : terrainFaces g = [] := by
  unfold terrainFaces
  rcases h0 with h0 | h0 <;> rw [h0] <;> simp [List.flatten_eq_nil_iff]

lemma terrainCell_00_error (L : ℚ) (g : ElevGrid) (hH : 1 ≤ g.resHeight)
    (hW : 1 ≤ g.resWidth) (h1 : g.resHeight = 1 ∨ g.resWidth = 1) :
    terrainCell L g 0 0 = .error "ZeroDivisionError" := by
  unfold terrainCell pdiv
  by_cases hw : g.resWidth = 1
  · rw [hw]
    simp
  · have hh : g.resHeight = 1 := by tauto
    have hwne : (g.resWidth : Int) - 1 ≠ 0 := by
      intro hz
      exact hw (by omega)
    rw [if_neg hwne, hh]
    simp

/-- C6 — the terrain mesher reports an error for every grid with zero rows,
zero columns, a single row or a single column: FALSE.  For a grid with ZERO
rows (or zero columns) the source silently returns a mesh with empty vertex
and face lists instead of reporting anything (only the single-row/column case
raises). -/
theorem claim6_counterexample :
    create_terrain_mesh 111000
        { west := 0, south := 0, east := 1, north := 1, resHeight := 0,
          resWidth := 3, elevation := [], minElev := 0, maxElev := 1 } =
      .ok (emptyTerrainMesh
        { west := 0, south := 0, east := 1, north := 1, resHeight := 0,
          resWidth := 3, elevation := [], minElev := 0, maxElev := 1 }) := by
  rfl

/-- C6 (amended) — a grid with zero rows or zero columns silently yields a
mesh with empty vertex and face lists; a grid with at least one row and one
column but only a single row or a single column raises `ZeroDivisionError`
(an unhandled exception) instead of producing output. -/
theorem claim6_amended (L : ℚ) (g : ElevGrid) :
    (g.resHeight = 0 ∨ g.resWidth = 0 →
      create_terrain_mesh L g = .ok (emptyTerrainMesh g)) ∧
    (1 ≤ g.resHeight → 1 ≤ g.resWidth → g.resHeight = 1 ∨ g.resWidth = 1 →
      create_terrain_mesh L g = .error "ZeroDivisionError") := by
  constructor
  · intro h0
    have hfaces := terrainFaces_zero g h0
    rcases h0 with h0 | h0
    · have houter : mapE (fun i => mapE (fun j => terrainCell L g i j)
          (List.range g.resWidth)) (List.range g.resHeight) = .ok [] := by
        rw [h0]
        rfl
      unfold create_terrain_mesh
      rw [houter, hfaces]
      rfl
    · unfold create_terrain_mesh
      rw [mapE_ok_of_forall _ ([] : List (V3 × (ℚ × ℚ)))
        (List.range g.resHeight) (fun i _ => by rw [h0]; rfl)]
      show Except.ok _ = _
      rw [hfaces]
      have hflat : (List.map (fun _ => ([] : List (V3 × (ℚ × ℚ))))
          (List.range g.resHeight)).flatten = [] := by
        rw [List.flatten_eq_nil_iff]
        intro l hl
        simp only [List.mem_map] at hl
        obtain ⟨_, _, rfl⟩ := hl
        rfl
      rw [hflat]
      rfl
  · intro hH hW h1
    obtain ⟨h', hh'⟩ : ∃ h', g.resHeight = h' + 1 := ⟨g.resHeight - 1, by omega⟩
    obtain ⟨w', hw'⟩ : ∃ w', g.resWidth = w' + 1 := ⟨g.resWidth - 1, by omega⟩
    have hrow : mapE (fun j => terrainCell L g 0 j) (List.range g.resWidth) =
        .error "ZeroDivisionError" := by
      rw [hw', List.range_succ_eq_map]
      exact mapE_cons_error _ _ _ _ (terrainCell_00_error L g hH hW h1)
    have houter : mapE (fun i => mapE (fun j => terrainCell L g i j)
        (List.range g.resWidth)) (List.range g.resHeight) =
        .error "ZeroDivisionError" := by
      rw [hh', List.range_succ_eq_map]
      exact mapE_cons_error _ _ _ _ hrow
    unfold create_terrain_mesh
    rw [houter]

/-- Witness for C6 (amended): the zero-row grid of the counterexample input
and a one-row two-column grid. -/
theorem claim6_witness :
    create_terrain_mesh 111000
        { west := 0, south := 0, east := 1, north := 1, resHeight := 0,
          resWidth := 3, elevation := [], minElev := 0, maxElev := 1 } =
      .ok (emptyTerrainMesh
        { west := 0, south := 0, east := 1, north := 1, resHeight := 0,
          resWidth := 3, elevation := [], minElev := 0, maxElev := 1 }) ∧
    create_terrain_mesh 111000
        { west := 0, south := 0, east := 1, north := 1, resHeight := 1,
          resWidth := 2, elevation := [[5, 6]], minElev := 5, maxElev := 6 } =
      .error "ZeroDivisionError" :=
  ⟨(claim6_amended 111000 _).1 (by decide),
   (claim6_amended 111000 _).2 (by decide) (by decide) (by decide)⟩

/-! ## C8 — face indices within bounds -/

lemma cell_idx_lt (i j hgt wid : Nat) (hi : i < hgt) (hj : j < wid) :
    i * wid + j < hgt * wid := by
  calc i * wid + j < i * wid + wid := by omega
  _ = (i + 1) * wid := by ring
  _ ≤ hgt * wid := Nat.mul_le_mul_right _ hi

lemma terrainFaces_bounds (g : ElevGrid) :
    ∀ f ∈ terrainFaces g, f.1 < g.resHeight * g.resWidth ∧
      f.2.1 < g.resHeight * g.resWidth ∧ f.2.2 < g.resHeight * g.resWidth := by
  intro f hf
  unfold terrainFaces at hf
  simp only [List.mem_flatten, List.mem_map] at hf
  obtain ⟨l, ⟨i, hi, rfl⟩, hfl⟩ := hf
  simp only [List.mem_flatten, List.mem_map] at hfl
  obtain ⟨l2, ⟨j, hj, rfl⟩, hfl2⟩ := hfl
  simp only [List.mem_range] at hi hj
  simp only [List.mem_cons, List.not_mem_nil, or_false] at hfl2
  have hiH : i < g.resHeight := by omega
  have hi1 : i + 1 < g.resHeight := by omega
  have hjW : j < g.resWidth := by omega
  have hj1 : j + 1 < g.resWidth := by omega
  rcases hfl2 with rfl | rfl
  · exact ⟨cell_idx_lt _ _ _ _ hiH hjW, cell_idx_lt _ _ _ _ hiH hj1,
      cell_idx_lt _ _ _ _ hi1 hjW⟩
  · exact ⟨cell_idx_lt _ _ _ _ hiH hj1, cell_idx_lt _ _ _ _ hi1 hj1,
      cell_idx_lt _ _ _ _ hi1 hjW⟩

/-- C8 — in every mesh produced by the polygon extruder and in every mesh
produced by the terrain mesher, every index of every face triple is strictly
less than the number of vertices of that mesh. -/
theorem claim8_face_indices :
    (∀ (L : ℚ) (p : Option (List Coord)) (h : ℚ) (m : Mesh),
      extrude_polygon L p h = some m → meshFacesOk m = true) ∧
    (∀ (L : ℚ) (g : ElevGrid) (m : TerrainMesh),
      create_terrain_mesh L g = .ok m → terrainMeshFacesOk m = true) := by
  constructor
  · intro L p h m hs
    cases p with
    | none => cases hs
    | some cs =>
      have h3 : 3 ≤ cs.length := by
        by_contra hlt
        rw [extrude_none_of_short L cs h (by omega)] at hs
        cases hs
      rw [extrude_some L cs h h3] at hs
      have hm : m = { vertices := extrudeVertices L (trimRing cs) h,
                      faces := extrudeFaces (trimRing cs).length,
                      numVertices := (extrudeVertices L (trimRing cs) h).length,
                      numFaces := (extrudeFaces (trimRing cs).length).length } := by
        injection hs with hs
        exact hs.symm
      subst hm
      have hn : 0 < (trimRing cs).length := by
        have := trimRing_length_ge cs
        omega
      unfold meshFacesOk
      rw [List.all_eq_true]
      intro f hf
      have hb := extrudeFaces_bounds (trimRing cs).length hn f hf
      simp [extrudeVertices_length, hb.1, hb.2.1, hb.2.2]
  · intro L g m hs
    obtain ⟨rows, hrows, hverts, hfaces⟩ := create_ok_elim L g m hs
    obtain ⟨hrlen, hrw⟩ := terrain_rows_width L g rows hrows
    have hvlen : m.vertices.length = g.resHeight * g.resWidth := by
      rw [hverts, List.length_map, flatten_length_of_uniform g.resWidth rows hrw,
        hrlen]
    unfold terrainMeshFacesOk
    rw [List.all_eq_true]
    intro f hf
    rw [hfaces] at hf
    have hb := terrainFaces_bounds g f hf
    simp [hvlen, hb.1, hb.2.1, hb.2.2]

/-- Witness for C8: the square-ring extrusion and the `g22` terrain mesh. -/
theorem claim8_witness :
    meshFacesOk sqMesh = true ∧ terrainMeshFacesOk g22Mesh = true :=
  ⟨claim8_face_indices.1 111000 (some sqRing) 10 sqMesh (by rfl),
   claim8_face_indices.2 111000 g22 g22Mesh (by rfl)⟩

/-! ## C4 — degrade on missing secondary source -/

/-- C4 — if the secondary name source is unavailable the Reconciler skips the
join, still runs the manual-override pass over every primary record, and still
produces an output collection.  fetch_buildings does exactly that (first
conjunct); enrich() instead lets the fetch exception reach its outer handler
and produces no output at all (second conjunct) — the code bug behind C4. -/
theorem claim4_code_behavior :
    (∀ (inter : FBuilding → OsmFeat → Bool) (e : String) (bs : List FBuilding),
      fetchReconcile inter (.error e) bs = bs.map applyManualMeta) ∧
    (∀ (inter : EBuilding → OsmFeat → Bool) (e : String) (bs : List EBuilding),
      enrichPipeline inter (.error e) bs = none) :=
  ⟨fun _ _ _ => rfl, fun _ _ _ => rfl⟩

/-! ## C5 — manual override never downgrades a sourced height -/

/-- C5 — in the manual-override pass, a record whose resolved name matches a
curated key has its height overwritten only when it is null or the 8.0
placeholder: with any other height, both fetch_buildings.apply_manual_meta and
enrich_buildings.apply_metadata keep the record's height unchanged. -/
theorem claim5_height_preserved (r : FBuilding) (s : EBuilding)
    (nm ns : String) (hrn : r.displayName = some nm)
    (hmr : (building_metadata.find? (fun kd => matchKey kd.1 nm)).isSome = true)
    (hsn : s.displayName = some ns)
    (hms : (building_metadata.find? (fun kd => matchKey kd.1 ns)).isSome = true)
    (h1 : r.height ≠ none) (h2 : r.height ≠ some 8)
    (h3 : s.height ≠ none) (h4 : s.height ≠ some 8) :
    (applyManualMeta r).height = r.height ∧
    (apply_metadata s).height = s.height := by
  constructor
  · unfold applyManualMeta
    rw [hrn]
    dsimp only
    cases hfind : building_metadata.find? (fun kd => matchKey kd.1 nm) with
    | none => rfl
    | some kd =>
      have hcond : ¬(r.height = none ∨ r.height = some 8) := by
        rintro (hc | hc)
        · exact h1 hc
        · exact h2 hc
      dsimp only
      rw [if_neg hcond]
  · unfold apply_metadata
    rw [hsn]
    dsimp only
    cases hfind : building_metadata.find? (fun kd => matchKey kd.1 ns) with
    | none => rfl
    | some kd =>
      dsimp only
      rw [if_neg h3]

/-- Witness for C5: records named "Shelby Hall" / "Gorgas Library Annex" with
a genuinely sourced height of 12 keep it through both override passes. -/
theorem claim5_witness :
    (applyManualMeta
        { bid := "b1", displayName := some "Shelby Hall", cls := none,
          subtype := none, height := some 12 }).height = some 12 ∧
    (apply_metadata
        { bid := "b2", displayName := some "Gorgas Library Annex",
          buildingType := none, purpose := none, height := some 12,
          color := none }).height = some 12 :=
  claim5_height_preserved _ _ "Shelby Hall" "Gorgas Library Annex" rfl
    (by decide) rfl (by decide) (by decide) (by decide) (by decide) (by decide)

/-! ## C9 — idempotence of the Reconciler -/

lemma amm_none (r : FBuilding) (hdn : r.displayName = none) :
    applyManualMeta r = r := by
  unfold applyManualMeta
  rw [hdn]

lemma amm_keeps (r : FBuilding) (nm : String) (hdn : r.displayName = some nm)
    (hf : building_metadata.find? (fun kd => matchKey kd.1 nm) = none) :
    applyManualMeta r = r := by
  unfold applyManualMeta
  rw [hdn]
  dsimp only
  rw [hf]

lemma amm_match (r : FBuilding) (nm : String) (kd : String × MetaEntry)
    (hdn : r.displayName = some nm)
    (hf : building_metadata.find? (fun kd => matchKey kd.1 nm) = some kd) :
    applyManualMeta r =
      { r with
        displayName := some kd.2.mname,
        cls := (match kd.2.mtype with | some t => some t | none => r.cls),
        subtype := (match kd.2.mpurpose with | some p => some p | none => r.subtype),
        height := if r.height = none ∨ r.height = some 8 then
            (match kd.2.mheight with | some hh => some hh | none => r.height)
          else r.height } := by
  unfold applyManualMeta
  rw [hdn]
  dsimp only
  rw [hf]

/-- Re-matching each curated output name against the table: every entry maps
back to itself except "Ferguson Student Center", which matches no key. -/
lemma second_find (e : String × MetaEntry) (he : e ∈ building_metadata) :
    building_metadata.find? (fun kd => matchKey kd.1 e.2.mname) =
      if e.2.mname = "Ferguson Student Center" then none else some e := by
  fin_cases he <;> decide

/-- The manual-override pass is idempotent on every record. -/
lemma amm_idem (r : FBuilding) :
    applyManualMeta (applyManualMeta r) = applyManualMeta r := by
  cases hdn : r.displayName with
  | none => rw [amm_none r hdn, amm_none r hdn]
  | some nm =>
    cases hfind : building_metadata.find? (fun kd => matchKey kd.1 nm) with
    | none => rw [amm_keeps r nm hdn hfind, amm_keeps r nm hdn hfind]
    | some kd =>
      have hmem := List.mem_of_find?_eq_some hfind
      have hsf := second_find kd hmem
      rw [amm_match r nm kd hdn hfind]
      by_cases hferg : kd.2.mname = "Ferguson Student Center"
      · rw [if_pos hferg] at hsf
        exact amm_keeps _ kd.2.mname rfl hsf
      · rw [if_neg hferg] at hsf
        rw [amm_match _ kd.2.mname kd rfl hsf]
        obtain ⟨rb, rdn, rcls, rst, rht⟩ := r
        simp only [FBuilding.mk.injEq, true_and]
        refine ⟨?_, ?_, ?_⟩
        · cases kd.2.mtype <;> rfl
        · cases kd.2.mpurpose <;> rfl
        · by_cases hc : rht = none ∨ rht = some 8
          · simp only [if_pos hc]
            cases kd.2.mheight with
            | some hh => split <;> rfl
            | none => split <;> rfl
          · simp only [if_neg hc]

lemma get_best_name_resolved (s : String) (hs : s ≠ "") (m : Option OsmFeat) :
    get_best_name (some s) m = some s := by
  unfold get_best_name
  dsimp only
  rw [if_pos hs]

lemma joinedName_resolved (inter : FBuilding → OsmFeat → Bool)
    (osm : List OsmFeat) (b : FBuilding) (s : String)
    (hb : b.displayName = some s) (hs : s ≠ "") :
    joinedName inter osm b = some s := by
  unfold joinedName firstSome
  rw [hb]
  by_cases hemp : (osm.filter (fun f => inter b f)).isEmpty
  · simp only [if_pos hemp]
    simp [get_best_name_resolved s hs]
  · simp only [if_neg hemp]
    obtain ⟨f0, fs, hfs⟩ := List.exists_cons_of_ne_nil
      (by simpa [List.isEmpty_iff] using hemp :
        osm.filter (fun f => inter b f) ≠ [])
    rw [hfs]
    simp [get_best_name_resolved s hs]

lemma joinNames_resolved (inter : FBuilding → OsmFeat → Bool)
    (osm : List OsmFeat) (bs : List FBuilding)
    (h : ∀ b ∈ bs, nameResolved b = true) :
    joinNames inter bs osm = bs := by
  unfold joinNames
  induction bs with
  | nil => rfl
  | cons b rest ih =>
    rw [List.map_cons, ih (fun x hx => h x (by simp [hx]))]
    have hb := h b (by simp)
    unfold nameResolved at hb
    cases hdn : b.displayName with
    | none => rw [hdn] at hb; cases hb
    | some s =>
      rw [hdn] at hb
      have hs : s ≠ "" := by
        intro hempty
        rw [hempty] at hb
        simp at hb
      rw [joinedName_resolved inter osm b s hdn hs, ← hdn]

/-- C9 — running the Reconciler (spatial join + manual-override pass) a second
time on its own output, with the same secondary source, when no unresolved
names remain, yields output identical to the first run's. -/
theorem claim9_idempotent (inter : FBuilding → OsmFeat → Bool)
    (fs : List OsmFeat) (bs : List FBuilding)
    (h : (fetchReconcile inter (.ok fs) bs).all nameResolved = true) :
    fetchReconcile inter (.ok fs) (fetchReconcile inter (.ok fs) bs) =
      fetchReconcile inter (.ok fs) bs := by
  have hres : ∀ b ∈ fetchReconcile inter (.ok fs) bs, nameResolved b = true :=
    List.all_eq_true.mp h
  show (joinNames inter (fetchReconcile inter (.ok fs) bs) fs).map
      applyManualMeta = _
  rw [joinNames_resolved inter fs _ hres]
  show ((joinNames inter bs fs).map applyManualMeta).map applyManualMeta = _
  rw [List.map_map]
  exact List.map_congr_left (fun b _ => amm_idem b)

/-- Witness for C9: a two-record collection (one sourced height, one default
8.0 height), empty OSM feature list, never-intersecting join predicate. -/
theorem claim9_witness :
    fetchReconcile (fun _ _ => false) (.ok [])
        (fetchReconcile (fun _ _ => false) (.ok [])
          [{ bid := "b1", displayName := some "Shelby Hall", cls := none,
             subtype := none, height := some 12 },
           { bid := "b2", displayName := some "gorgas library annex",
             cls := none, subtype := none, height := some 8 }]) =
      fetchReconcile (fun _ _ => false) (.ok [])
        [{ bid := "b1", displayName := some "Shelby Hall", cls := none,
           subtype := none, height := some 12 },
         { bid := "b2", displayName := some "gorgas library annex",
           cls := none, subtype := none, height := some 8 }] :=
  claim9_idempotent (fun _ _ => false) [] _ (by decide)

end Uatwin
